import Mathlib

/-!
Verification of the wifi-agent-portal settlement core.

Shallow embedding of the payment settlement state machine
(PaymentService), the qi-card gateway webhook pipeline, the SAS remote
ledger client retry loop (SasClientService.request), the per-agent token
cache (SasTokenService.getSasToken), the credential vault
(EncryptionService) and the settlement orchestrator
(AgentsService.completeTopUp).

Network calls and external library primitives (axios round trips, the
AES cipher of crypto-js, the RSA signature check) are modelled as
explicit oracle parameters; everything the repository itself computes is
translated directly from the TypeScript source.
-/

/-! ## Payment data model (payment.enum.ts, prisma PaymentTransaction) -/

inductive PaymentStatus
  | pending
  | completed
  | failed
  | cancelled
  | refunded
deriving DecidableEq, Repr

inductive PaymentMethod
  | qiCard
deriving DecidableEq, Repr

inductive ServiceType
  | agentTopUp
  | userActivation
deriving DecidableEq, Repr

/-- Metadata map of a payment transaction; only the keys the settlement
code reads or writes are tracked, each absent by default. -/
structure PaymentMetadata where
  transactionId : Option String := none
  topUpCompleted : Option Bool := none
  topUpCompletedAt : Option Nat := none
  processedBy : Option String := none
  topUpError : Option String := none
  topUpAttemptedAt : Option Nat := none
deriving DecidableEq, Repr

/-- A PaymentTransaction record. Timestamps are Nat, the opaque
paymentDetails blob is kept as a String. -/
structure Payment where
  id : String
  transactionId : String
  referenceId : String
  agentId : String
  amount : Nat
  status : PaymentStatus
  paymentMethod : PaymentMethod
  serviceType : ServiceType
  paymentDetails : String := ""
  metadata : PaymentMetadata := {}
  processedAt : Option Nat := none
  failureReason : Option String := none
deriving DecidableEq, Repr

/-- Domain errors thrown by PaymentService: NotFoundException and
BadRequestException, each carrying the i18n message key used at the
throw site. -/
inductive PayError
  | notFound (msg : String)
  | badRequest (msg : String)
deriving DecidableEq, Repr

def notFoundMsg : String := "payment.errors.notFound"
def cannotCancelMsg : String := "payment.errors.cannotCancel"
def cannotRefundMsg : String := "payment.errors.cannotRefund"
def cancelFailedMsg : String := "payment.errors.cancelFailed"
def refundFailedMsg : String := "payment.errors.refundFailed"

/-! ## Payment gateway oracle results (qi-card-gateway.service.ts) -/

structure GatewayCancelResult where
  success : Bool
deriving DecidableEq, Repr

structure GatewayRefundResult where
  success : Bool
  refundId : String
deriving DecidableEq, Repr

/-- Result of the gateway getPaymentStatus call, already mapped to the
internal status vocabulary. -/
structure GatewayStatusResult where
  success : Bool
  status : PaymentStatus
  details : String
deriving DecidableEq, Repr

/-- Webhook notification body as far as the pipeline inspects it:
the gateway payment id and the native status string. -/
structure WebhookPayload where
  paymentId : String
  status : String
deriving DecidableEq, Repr

/-- Opaque rendering of the payload stored into paymentDetails when the
webhook updates the record. -/
def WebhookPayload.toDetails (p : WebhookPayload) : String :=
  p.paymentId ++ ":" ++ p.status

/-- QiCardGatewayService.mapQiStatusToInternal: native vocabulary to the
internal enum, any unrecognized value maps to failed. -/
def QiCardGatewayService.mapQiStatusToInternal (qiStatus : String) : PaymentStatus :=
  if qiStatus = "SUCCESS" then .completed
  else if qiStatus = "PENDING" then .pending
  else if qiStatus = "FAILED" then .failed
  else if qiStatus = "CANCELLED" then .cancelled
  else if qiStatus = "REFUNDED" then .refunded
  else .failed

structure WebhookProcessResult where
  success : Bool
  paymentId : String
  status : PaymentStatus
  shouldUpdateDatabase : Bool
deriving DecidableEq, Repr

/-- QiCardGatewayService.processWebhookNotification: maps the native
status and flags a database update exactly for terminal statuses. -/
def QiCardGatewayService.processWebhookNotif (payload : WebhookPayload) : WebhookProcessResult :=
  let status := QiCardGatewayService.mapQiStatusToInternal payload.status
  { success := true
    paymentId := payload.paymentId
    status := status
    shouldUpdateDatabase := status = .completed || status = .failed }

/-- QiCardGatewayService.verifyWebhookSignature: false when the public
key file is missing, otherwise the RSA-SHA256 verdict (the cryptographic
check itself is the rsaValid oracle). -/
def QiCardGatewayService.verifyWebhookSignature (publicKeyExists rsaValid : Bool) : Bool :=
  publicKeyExists && rsaValid

/-! ## PaymentService operations (payment.service.ts)

Each operation receives the result of the prisma findUnique lookup as an
Option Payment and the gateway round trip as an oracle value, and
returns the updated record or the thrown domain error. -/

/-- PaymentService.getPaymentById: not-found on a missing record and on
an ownership mismatch, with the same error. -/
def PaymentService.getPaymentById (paymentFound : Option Payment) (agentId : String) :
    Except PayError Payment :=
  match paymentFound with
  | none => .error (.notFound notFoundMsg)
  | some payment =>
    if payment.agentId ≠ agentId then .error (.notFound notFoundMsg)
    else .ok payment

/-- PaymentService.updatePaymentStatus: writes status and processedAt,
replaces paymentDetails only when details are supplied, overwrites
failureReason only when supplied; metadata is untouched. -/
def PaymentService.updatePaymentStatus (payment : Payment) (status : PaymentStatus)
    (details : Option String) (failureReason : Option String) (now : Nat) : Payment :=
  { payment with
    status := status
    processedAt := some now
    paymentDetails := details.getD payment.paymentDetails
    failureReason := match failureReason with
      | some r => some r
      | none => payment.failureReason }

deriving instance DecidableEq for Except

/-- Outcome of PaymentService.checkPaymentStatus: the response, the
record as stored afterwards, whether the gateway was polled, and how
many times the settlement orchestrator was invoked. -/
structure CheckOutcome where
  response : Except PayError Payment
  stored : Option Payment
  gatewayPolled : Bool
  settlementInvocations : Nat
deriving DecidableEq, Repr

/-- PaymentService.checkPaymentStatus: terminal records are returned
from cache; a pending record is polled and updated only when the polled
status differs; no settlement side effect on this path. -/
def PaymentService.checkPaymentStatus (paymentFound : Option Payment) (agentId : String)
    (statusResult : GatewayStatusResult) (now : Nat) : CheckOutcome :=
  match paymentFound with
  | none => ⟨.error (.notFound notFoundMsg), none, false, 0⟩
  | some payment =>
    if payment.agentId ≠ agentId then
      ⟨.error (.notFound notFoundMsg), some payment, false, 0⟩
    else if payment.status = .completed || payment.status = .failed
        || payment.status = .cancelled || payment.status = .refunded then
      ⟨.ok payment, some payment, false, 0⟩
    else if statusResult.success && statusResult.status ≠ payment.status then
      let updated := PaymentService.updatePaymentStatus payment statusResult.status
        (some statusResult.details) none now
      ⟨.ok updated, some updated, true, 0⟩
    else
      ⟨.ok payment, some payment, true, 0⟩

/-- PaymentService.refundPayment: not-found on absence or ownership
mismatch, CannotRefund unless the record is completed, RefundFailed when
the gateway declines, otherwise the record transitions to refunded. -/
def PaymentService.refundPayment (paymentFound : Option Payment) (agentId : String)
    (refundResult : GatewayRefundResult) (now : Nat) : Except PayError Payment :=
  match paymentFound with
  | none => .error (.notFound notFoundMsg)
  | some payment =>
    if payment.agentId ≠ agentId then .error (.notFound notFoundMsg)
    else if payment.status ≠ .completed then .error (.badRequest cannotRefundMsg)
    else if !refundResult.success then .error (.badRequest refundFailedMsg)
    else .ok { payment with
      status := .refunded
      processedAt := some now
      paymentDetails := payment.paymentDetails ++ ";refund=" ++ refundResult.refundId }

/-- PaymentService.cancelPayment: not-found on absence or ownership
mismatch, CannotCancel unless the record is pending, CancelFailed when
the gateway declines, otherwise the record transitions to cancelled. -/
def PaymentService.cancelPayment (paymentFound : Option Payment) (agentId : String)
    (cancelResult : GatewayCancelResult) (now : Nat) : Except PayError Payment :=
  match paymentFound with
  | none => .error (.notFound notFoundMsg)
  | some payment =>
    if payment.agentId ≠ agentId then .error (.notFound notFoundMsg)
    else if payment.status ≠ .pending then .error (.badRequest cannotCancelMsg)
    else if !cancelResult.success then .error (.badRequest cancelFailedMsg)
    else .ok { payment with status := .cancelled, processedAt := some now }

/-! ## Settlement path (processSuccessfulPayment, processWebhook) -/

/-- Outcome of PaymentService.processSuccessfulPayment: the stored
record afterwards, the number of completeTopUp invocations, and whether
the payment.completed audit entry was reached. -/
structure SettleOutcome where
  stored : Payment
  settlementInvocations : Nat
  auditCompleted : Bool
deriving DecidableEq, Repr

/-- PaymentService.processSuccessfulPayment: for an agent top-up it
invokes completeTopUp (outcome given by topUpRes); on success it marks
the metadata with topUpCompleted, on failure it records topUpError and
topUpAttemptedAt while leaving the status untouched, and the outer
catch swallows the rethrown error. The payment argument is the record
fetched before the status update, stored is the record as currently
stored. -/
def PaymentService.processSuccessfulPayment (payment stored : Payment)
    (topUpRes : Except String Unit) (now : Nat) : SettleOutcome :=
  if payment.serviceType = .agentTopUp then
    match topUpRes with
    | .ok _ =>
      { stored := { stored with metadata :=
          { payment.metadata with
            topUpCompleted := some true
            topUpCompletedAt := some now
            processedBy := some "webhook" } }
        settlementInvocations := 1
        auditCompleted := true }
    | .error e =>
      { stored := { stored with metadata :=
          { payment.metadata with
            topUpError := some e
            topUpAttemptedAt := some now } }
        settlementInvocations := 1
        auditCompleted := false }
  else
    { stored := stored, settlementInvocations := 0, auditCompleted := true }

/-- Outcome of PaymentService.processWebhook. -/
structure WebhookOutcome where
  stored : Option Payment
  settlementInvocations : Nat
deriving DecidableEq, Repr

/-- PaymentService.processWebhook: looks the payment up by gateway
transaction id, lets the gateway classify the notification, writes the
mapped status whenever shouldUpdateDatabase holds, and invokes the
settlement step whenever the mapped status is completed. No check of
the previously stored status is performed. -/
def PaymentService.processWebhook (paymentFound : Option Payment)
    (payload : WebhookPayload) (topUpRes : Except String Unit) (now : Nat) : WebhookOutcome :=
  match paymentFound with
  | none => ⟨none, 0⟩
  | some payment =>
    let result := QiCardGatewayService.processWebhookNotif payload
    if result.shouldUpdateDatabase then
      let updated := PaymentService.updatePaymentStatus payment result.status
        (some payload.toDetails) none now
      if result.status = .completed then
        let sp := PaymentService.processSuccessfulPayment payment updated topUpRes now
        ⟨some sp.stored, sp.settlementInvocations⟩
      else
        ⟨some updated, 0⟩
    else
      ⟨some payment, 0⟩

/-! ## Remote ledger client retry loop (sas-client.service.ts) -/

/-- Outcome of one network attempt: a 2xx response carrying data, or a
failure carrying the HTTP status of the error response when there is
one (none for network errors and timeouts). -/
inductive AttemptOutcome
  | success (data : Nat)
  | failure (httpStatus : Option Nat)
deriving DecidableEq, Repr

/-- True for the failures the loop retries: any failure whose status is
not 401. -/
def isRetryableFail : AttemptOutcome → Bool
  | .success _ => false
  | .failure st => decide (st ≠ some 401)

/-- Audit actions written by SasClientService.request, tagged with the
attempt number. -/
inductive AuditEntry
  | sasRequest (attempt : Nat)
  | sasResponseSuccess (attempt : Nat)
  | sasResponseFailed (attempt : Nat)
deriving DecidableEq, Repr

inductive SasError
  | authExpired
  | serviceUnavailable
deriving DecidableEq, Repr

/-- Observable outcome of a SasClientService.request call: the returned
data or thrown HttpException, the sequence of retry delays awaited, and
the audit records written in order. -/
structure RequestOutcome where
  result : Except SasError Nat
  delays : List Nat
  audits : List AuditEntry
deriving DecidableEq, Repr

/-- Body of the while loop of SasClientService.request. The oracle
gives the outcome of each numbered attempt, remaining counts the loop
iterations still allowed, attempt is the counter before the increment
at the top of the body. Each attempt writes a request audit, then a
success or failure audit; a 401 failure aborts immediately; any other
failure sleeps retryDelay times the attempt number when iterations
remain, and the loop falls through to a 503 once they are spent. -/
def requestFrom (oracle : Nat → AttemptOutcome) (retryDelay : Nat) :
    Nat → Nat → RequestOutcome
  | 0, _ => ⟨.error .serviceUnavailable, [], []⟩
  | r + 1, attempt =>
    let a := attempt + 1
    match oracle a with
    | .success d => ⟨.ok d, [], [.sasRequest a, .sasResponseSuccess a]⟩
    | .failure st =>
      if st = some 401 then
        ⟨.error .authExpired, [], [.sasRequest a, .sasResponseFailed a]⟩
      else if r = 0 then
        ⟨.error .serviceUnavailable, [], [.sasRequest a, .sasResponseFailed a]⟩
      else
        let rest := requestFrom oracle retryDelay r a
        ⟨rest.result, retryDelay * a :: rest.delays,
          .sasRequest a :: .sasResponseFailed a :: rest.audits⟩

/-- SasClientService.request: runs up to maxRetries attempts starting
from attempt counter 0. -/
def SasClientService.request (oracle : Nat → AttemptOutcome)
    (maxRetries retryDelay : Nat) : RequestOutcome :=
  requestFrom oracle retryDelay maxRetries 0

/-- Expected delays for n consecutive retried failures at attempts
base+1 .. base+n: retryDelay times the attempt number. -/
def delaysUpTo (retryDelay base : Nat) : Nat → List Nat
  | 0 => []
  | n + 1 => retryDelay * (base + 1) :: delaysUpTo retryDelay (base + 1) n

/-- Expected audit trail for n consecutive failed attempts at
base+1 .. base+n: a request audit then a failure audit per attempt. -/
def failTrail (base : Nat) : Nat → List AuditEntry
  | 0 => []
  | n + 1 => .sasRequest (base + 1) :: .sasResponseFailed (base + 1) :: failTrail (base + 1) n

/-! ## Credential vault (encryption.service.ts)

The AES primitive of the crypto-js library is passed in as a pair of
cipher functions; the repository logic is the empty-string no-ops and
the rejection of a decryption that produced an empty string. -/

inductive EncError
  | decryptionFailed
deriving DecidableEq, Repr

/-- EncryptionService.encrypt: empty input is returned unchanged,
otherwise the AES ciphertext. -/
def EncryptionService.encrypt (cipherEnc : String → String) (plainText : String) : String :=
  if plainText = "" then "" else cipherEnc plainText

/-- EncryptionService.decrypt: empty input is returned unchanged; an
AES decryption that yields the empty string is rejected as a
decryption failure. -/
def EncryptionService.decrypt (cipherDec : String → String) (cipherText : String) :
    Except EncError String :=
  if cipherText = "" then .ok ""
  else
    let decrypted := cipherDec cipherText
    if decrypted = "" then .error .decryptionFailed else .ok decrypted

/-! ## Identity token cache (sas-token.service.ts) -/

structure SasSystem where
  id : String
  baseUrl : String
  sslEnabled : Bool
  adminUsername : String
  adminEncryptedPassword : String
deriving DecidableEq, Repr

/-- An agent record with the token cache fields mutated by
SasTokenService and the cached SAS manager id used by completeTopUp. -/
structure Agent where
  id : String
  username : String
  encryptedPassword : String
  encryptedSasToken : Option String := none
  sasTokenExpiresAt : Option Nat := none
  sasManagerId : Option Nat := none
  sasSystem : Option SasSystem := none
deriving DecidableEq, Repr

/-- Truthiness of an optional string field in the source: present and
nonempty. -/
def truthyStr : Option String → Bool
  | none => false
  | some s => s ≠ ""

/-- Errors thrown by SasTokenService.getSasToken: a vault decryption
failure on the cached token or on the agent password, the TypeError
raised when the refresh path dereferences a missing sasSystem, or a
propagated login error. -/
inductive TokenError
  | decryptionFailed
  | noSasSystem
  | login (e : SasError)
deriving DecidableEq, Repr

/-- Outcome of SasTokenService.getSasToken: the returned plaintext
token or thrown error, the number of remote logins issued, and the
agent record as persisted afterwards. -/
structure TokenOutcome where
  result : Except TokenError String
  loginCount : Nat
  agent : Agent
deriving DecidableEq, Repr

/-- SasTokenService.getSasToken: a cached token is reused without any
network call while it exists and its expiry lies strictly in the
future, by returning the vault decryption of the cached ciphertext
(which can fail). Otherwise the refresh path first dereferences
agent.sasSystem to build the SAS config (throwing when it is absent),
decrypts the stored agent password with the vault (a decryption
failure aborts before any login), issues one login (outcome given by
loginRes), persists the vault encryption of the new token with an
expiry one hour from now, and returns the plaintext token. -/
def SasTokenService.getSasToken (cipherDec cipherEnc : String → String)
    (loginRes : Except SasError String) (now : Nat) (agent : Agent) : TokenOutcome :=
  if truthyStr agent.encryptedSasToken
      && (match agent.sasTokenExpiresAt with
          | some e => decide (e > now)
          | none => false) then
    match EncryptionService.decrypt cipherDec (agent.encryptedSasToken.getD "") with
    | .error _ => ⟨.error .decryptionFailed, 0, agent⟩
    | .ok tok => ⟨.ok tok, 0, agent⟩
  else
    match agent.sasSystem with
    | none => ⟨.error .noSasSystem, 0, agent⟩
    | some _ =>
      match EncryptionService.decrypt cipherDec agent.encryptedPassword with
      | .error _ => ⟨.error .decryptionFailed, 0, agent⟩
      | .ok _ =>
        match loginRes with
        | .error e => ⟨.error (.login e), 1, agent⟩
        | .ok newToken =>
          ⟨.ok newToken, 1,
            { agent with
              encryptedSasToken := some (EncryptionService.encrypt cipherEnc newToken)
              sasTokenExpiresAt := some (now + 3600) }⟩

/-! ## Settlement orchestrator (agents.service.ts completeTopUp) -/

/-- The slice of the SAS auth response the orchestrator reads: the
numeric manager id and the wallet balance of the client object, either
possibly absent. -/
structure UserInfo where
  clientId : Option Nat := none
  balance : Option Int := none
deriving DecidableEq, Repr

/-- Errors surfaced by AgentsService.completeTopUp: the not-found guard,
a vault decryption failure on the admin password, the missing SAS
manager id, or a propagated SAS client error. -/
inductive CtuError
  | notFound
  | decryptFailed
  | noSasId
  | sas (e : SasError)
deriving DecidableEq, Repr

/-- Message attached to each completeTopUp error, as recorded into the
topUpError metadata entry by the caller. -/
def CtuError.message : CtuError → String
  | .notFound => "Agent or SAS system not found"
  | .decryptFailed => "Decryption failed"
  | .noSasId => "Failed to retrieve agent ID from SAS"
  | .sas .authExpired => "SAS authentication expired"
  | .sas .serviceUnavailable => "SAS service temporarily unavailable"

structure TopUpResult where
  success : Bool
  amount : Nat
  previousBalance : Int
  newBalance : Int
deriving DecidableEq, Repr

/-- Outcome of AgentsService.completeTopUp: the returned value or the
rethrown error, together with the agent record as persisted (the
sasManagerId is cached when it was absent). -/
structure TopUpOutcome where
  result : Except CtuError TopUpResult
  agent : Option Agent
deriving DecidableEq, Repr

/-- AgentsService.completeTopUp: guards the agent and its SAS system,
obtains the agent token and user info, resolves or caches the SAS
manager id, decrypts the admin password with the vault, logs in as
administrator, issues the deposit, refreshes the balance, and rethrows
every error to its caller after the failure audit. The remote calls are
the oracle arguments tokenRes1, userInfo1, adminLogin, deposit,
tokenRes2, userInfo2. -/
def AgentsService.completeTopUp (agentFound : Option Agent) (amount : Nat)
    (cipherDec : String → String)
    (tokenRes1 : Except SasError String) (userInfo1 : Except SasError UserInfo)
    (adminLogin : Except SasError String) (deposit : Except SasError Nat)
    (tokenRes2 : Except SasError String) (userInfo2 : Except SasError UserInfo) :
    TopUpOutcome :=
  match agentFound with
  | none => ⟨.error .notFound, none⟩
  | some agent =>
    match agent.sasSystem with
    | none => ⟨.error .notFound, some agent⟩
    | some sys =>
      match tokenRes1 with
      | .error e => ⟨.error (.sas e), some agent⟩
      | .ok _ =>
      match userInfo1 with
      | .error e => ⟨.error (.sas e), some agent⟩
      | .ok info =>
      let currentBalance := info.balance.getD 0
      match agent.sasManagerId.or info.clientId with
      | none => ⟨.error .noSasId, some agent⟩
      | some sasId =>
      let agent1 := if agent.sasManagerId.isNone then
          { agent with sasManagerId := some sasId } else agent
      match EncryptionService.decrypt cipherDec sys.adminEncryptedPassword with
      | .error _ => ⟨.error .decryptFailed, some agent1⟩
      | .ok _ =>
      match adminLogin with
      | .error e => ⟨.error (.sas e), some agent1⟩
      | .ok _ =>
      match deposit with
      | .error e => ⟨.error (.sas e), some agent1⟩
      | .ok _ =>
      match tokenRes2 with
      | .error e => ⟨.error (.sas e), some agent1⟩
      | .ok _ =>
      match userInfo2 with
      | .error e => ⟨.error (.sas e), some agent1⟩
      | .ok info2 =>
        ⟨.ok { success := true, amount := amount,
               previousBalance := currentBalance,
               newBalance := info2.balance.getD 0 }, some agent1⟩

/-- Bridge from the completeTopUp outcome to the error message observed
by processSuccessfulPayment. -/
def topUpMsgRes : Except CtuError TopUpResult → Except String Unit
  | .ok _ => .ok ()
  | .error e => .error e.message

/-! ## Webhook endpoint (qi-card-webhook.controller.ts handleNotification) -/

/-- Inbound notification request: the shared-secret query token, the
optional x-signature header, and the parsed body. -/
structure NotifRequest where
  token : String
  signature : Option String
  payload : WebhookPayload
deriving DecidableEq, Repr

/-- Observable outcome of the notification endpoint: the response or
thrown BadRequestException message, the stored record for the payment
afterwards, the number of settlement invocations, and the number of
payment lookups performed. -/
structure NotifOutcome where
  response : Except String Unit
  stored : Option Payment
  settlementInvocations : Nat
  paymentLookups : Nat
deriving DecidableEq, Repr

/-- QiCardWebhookController.handleNotification: checks the callback
token, requires the signature header, verifies the signature over the
raw body, and only then hands the payload to processWebhook; any guard
failure throws before the payment record is read or written. -/
def QiCardWebhookController.handleNotification (expectedToken : String)
    (req : NotifRequest) (publicKeyExists rsaValid : Bool)
    (paymentFound : Option Payment) (topUpRes : Except String Unit) (now : Nat) :
    NotifOutcome :=
  if req.token ≠ expectedToken then
    ⟨.error "Invalid token", paymentFound, 0, 0⟩
  else
    match req.signature with
    | none => ⟨.error "Missing signature", paymentFound, 0, 0⟩
    | some _ =>
      if QiCardGatewayService.verifyWebhookSignature publicKeyExists rsaValid then
        let w := PaymentService.processWebhook paymentFound req.payload topUpRes now
        ⟨.ok (), w.stored, w.settlementInvocations, 1⟩
      else
        ⟨.error "Invalid signature", paymentFound, 0, 0⟩

/-! ## Concrete records used by the closed counterexamples -/

/-- A completed agent top-up payment as stored after a successful
settlement. -/
def samplePaymentCompleted : Payment :=
  { id := "pay-1", transactionId := "TX1", referenceId := "REF1",
    agentId := "agent-1", amount := 10000, status := .completed,
    paymentMethod := .qiCard, serviceType := .agentTopUp }

/-- A freshly created pending agent top-up payment. -/
def samplePaymentPending : Payment :=
  { samplePaymentCompleted with status := .pending }

/-! ## Concrete oracles for the retry scenarios -/

/-- Oracle whose first two attempts time out (network failure without a
status) and whose third attempt succeeds. -/
def timeoutsThenSuccess : Nat → AttemptOutcome :=
  fun a => if a ≤ 2 then .failure none else .success 200

/-- Oracle that answers 401 Unauthorized to every attempt. -/
def always401 : Nat → AttemptOutcome :=
  fun _ => .failure (some 401)

/-- C4 counterexample: in the two-timeouts-then-success scenario with
maxRetries 3 the client writes 6 audit records (a request audit and a
response audit per attempt), not 3; in the 401-on-first-attempt
scenario it writes 2 audit records, not 1. -/
theorem C4_audit_count_counterexample :
    (SasClientService.request timeoutsThenSuccess 3 1000).audits.length = 6
    ∧ ¬ (SasClientService.request timeoutsThenSuccess 3 1000).audits.length = 3
    ∧ (SasClientService.request always401 3 1000).audits.length = 2
    ∧ ¬ (SasClientService.request always401 3 1000).audits.length = 1 := by
  decide

/-- C4 (amended): with maxRetries 3 and two timeouts before a success,
the call observes exactly the delays retryDelay*1 and retryDelay*2 and
writes exactly 6 audit records, two per attempt, before returning the
data; a 401 on attempt 1 produces no delay, no retry, an immediate
authentication-expired error and exactly 2 audit records. -/
theorem C4_retry_scenarios :
    SasClientService.request timeoutsThenSuccess 3 1000 =
      ⟨.ok 200, [1000, 2000],
        [.sasRequest 1, .sasResponseFailed 1, .sasRequest 2, .sasResponseFailed 2,
         .sasRequest 3, .sasResponseSuccess 3]⟩
    ∧ SasClientService.request always401 3 1000 =
      ⟨.error .authExpired, [], [.sasRequest 1, .sasResponseFailed 1]⟩ := by
  decide

/-- C1 counterexample: a webhook carrying native status FAILED for a
payment whose stored status is already the terminal value completed is
not rejected; processWebhook overwrites the stored status with failed. -/
theorem C1_webhook_overwrites_terminal :
    samplePaymentCompleted.status = .completed
    ∧ (PaymentService.processWebhook (some samplePaymentCompleted)
        ⟨"TX1", "FAILED"⟩ (.ok ()) 5).stored.map Payment.status = some .failed := by
  decide

/-- C2 counterexample: a success webhook moves the pending sample
payment to completed and invokes the settlement step once; redelivering
the same success webhook to the now-completed record invokes the
settlement step once more, so it is not invoked at most once per
payment lifetime. -/
theorem C2_replay_reinvokes_settlement :
    (PaymentService.processWebhook (some samplePaymentPending)
        ⟨"TX1", "SUCCESS"⟩ (.ok ()) 5).settlementInvocations = 1
    ∧ (PaymentService.processWebhook (some samplePaymentPending)
        ⟨"TX1", "SUCCESS"⟩ (.ok ()) 5).stored.map Payment.status = some .completed
    ∧ (PaymentService.processWebhook
        (PaymentService.processWebhook (some samplePaymentPending)
          ⟨"TX1", "SUCCESS"⟩ (.ok ()) 5).stored
        ⟨"TX1", "SUCCESS"⟩ (.ok ()) 6).settlementInvocations = 1 := by
  decide

/-- C1 (amended): the caller-driven and poll-driven operations respect
terminality — cancelPayment on a non-pending record is rejected with
the CannotCancel domain error, refundPayment on a non-completed record
with the CannotRefund domain error, and checkPaymentStatus returns a
terminal record unchanged — but processWebhook performs no terminal
state check: a verified webhook whose native status is FAILED writes
the failed status even onto a record already in the terminal completed
state. -/
theorem C1_terminal_transition_rules (pa pb pc pd : Payment)
    (cr : GatewayCancelResult) (rr : GatewayRefundResult) (sr : GatewayStatusResult)
    (payload : WebhookPayload) (r : Except String Unit) (now : Nat)
    (ha : pa.status ≠ .pending) (hb : pb.status ≠ .completed)
    (hc : pc.status ≠ .pending) (_hd : pd.status = .completed)
    (hp : payload.status = "FAILED") :
    PaymentService.cancelPayment (some pa) pa.agentId cr now
      = .error (.badRequest cannotCancelMsg)
    ∧ PaymentService.refundPayment (some pb) pb.agentId rr now
      = .error (.badRequest cannotRefundMsg)
    ∧ (PaymentService.checkPaymentStatus (some pc) pc.agentId sr now).stored = some pc
    ∧ (PaymentService.processWebhook (some pd) payload r now).stored.map Payment.status
      = some .failed := by
  refine ⟨?_, ?_, ?_, ?_⟩
  · simp [PaymentService.cancelPayment, ha]
  · simp [PaymentService.refundPayment, hb]
  · rcases pc with ⟨i, t, rf, ag, am, st, pm, sv, pdt, md, pr, fr⟩
    cases st
    · exact absurd rfl hc
    all_goals simp [PaymentService.checkPaymentStatus]
  · rcases payload with ⟨pid, pst⟩
    subst hp
    simp [PaymentService.processWebhook, QiCardGatewayService.processWebhookNotif,
      QiCardGatewayService.mapQiStatusToInternal, PaymentService.updatePaymentStatus]

/-- C1 witness: the amended rules evaluated on the sample completed and
pending payments. -/
theorem C1_terminal_transition_rules_witness :
    PaymentService.cancelPayment (some samplePaymentCompleted)
      samplePaymentCompleted.agentId ⟨true⟩ 9 = .error (.badRequest cannotCancelMsg)
    ∧ PaymentService.refundPayment (some samplePaymentPending)
      samplePaymentPending.agentId ⟨true, "r1"⟩ 9 = .error (.badRequest cannotRefundMsg)
    ∧ (PaymentService.checkPaymentStatus (some samplePaymentCompleted)
      samplePaymentCompleted.agentId ⟨true, .completed, "d"⟩ 9).stored = some samplePaymentCompleted
    ∧ (PaymentService.processWebhook (some samplePaymentCompleted)
      ⟨"TX1", "FAILED"⟩ (.ok ()) 9).stored.map Payment.status = some .failed :=
  C1_terminal_transition_rules samplePaymentCompleted samplePaymentPending
    samplePaymentCompleted samplePaymentCompleted ⟨true⟩ ⟨true, "r1"⟩
    ⟨true, .completed, "d"⟩ ⟨"TX1", "FAILED"⟩ (.ok ()) 9
    (by decide) (by decide) (by decide) (by decide) rfl

/-- C2 (amended): within a single operation the settlement step is
invoked exactly when processWebhook handles a notification whose mapped
status is completed for an existing agent top-up payment — regardless
of the previously stored status, so a redelivered success webhook
invokes it again — it is invoked at most once per processWebhook call,
never when the payment is unknown, and never by the caller-initiated
status poll. -/
theorem C2_settlement_trigger_characterization (p : Payment) (payload : WebhookPayload)
    (r : Except String Unit) (q : Option Payment) (aid : String)
    (sr : GatewayStatusResult) (now : Nat) :
    ((PaymentService.processWebhook (some p) payload r now).settlementInvocations = 1
      ↔ (QiCardGatewayService.mapQiStatusToInternal payload.status = .completed
         ∧ p.serviceType = .agentTopUp))
    ∧ (PaymentService.processWebhook (some p) payload r now).settlementInvocations ≤ 1
    ∧ (PaymentService.processWebhook none payload r now).settlementInvocations = 0
    ∧ (PaymentService.checkPaymentStatus q aid sr now).settlementInvocations = 0 := by
  have hpoll : (PaymentService.checkPaymentStatus q aid sr now).settlementInvocations = 0 := by
    rcases q with _ | pay
    · rfl
    · simp only [PaymentService.checkPaymentStatus]
      split
      · rfl
      · split
        · rfl
        · split <;> rfl
  have hmain : (PaymentService.processWebhook (some p) payload r now).settlementInvocations
      = (if QiCardGatewayService.mapQiStatusToInternal payload.status = .completed
            ∧ p.serviceType = .agentTopUp then 1 else 0) := by
    rcases hs : QiCardGatewayService.mapQiStatusToInternal payload.status <;>
      rcases hsv : p.serviceType <;> rcases r <;>
        simp [PaymentService.processWebhook, QiCardGatewayService.processWebhookNotif,
          PaymentService.processSuccessfulPayment, hs, hsv]
  refine ⟨?_, ?_, rfl, hpoll⟩
  · rw [hmain]
    split
    · simp_all
    · simp_all
  · rw [hmain]
    split <;> simp

/-- C2 witness: the characterization evaluated on the sample completed
payment and a success notification. -/
theorem C2_settlement_trigger_characterization_witness :
    ((PaymentService.processWebhook (some samplePaymentCompleted)
        ⟨"TX1", "SUCCESS"⟩ (.ok ()) 9).settlementInvocations = 1
      ↔ (QiCardGatewayService.mapQiStatusToInternal "SUCCESS" = .completed
         ∧ samplePaymentCompleted.serviceType = .agentTopUp))
    ∧ (PaymentService.processWebhook (some samplePaymentCompleted)
        ⟨"TX1", "SUCCESS"⟩ (.ok ()) 9).settlementInvocations ≤ 1
    ∧ (PaymentService.processWebhook none ⟨"TX1", "SUCCESS"⟩ (.ok ()) 9).settlementInvocations = 0
    ∧ (PaymentService.checkPaymentStatus (some samplePaymentCompleted) "agent-1"
        ⟨true, .completed, "d"⟩ 9).settlementInvocations = 0 :=
  C2_settlement_trigger_characterization samplePaymentCompleted ⟨"TX1", "SUCCESS"⟩
    (.ok ()) (some samplePaymentCompleted) "agent-1" ⟨true, .completed, "d"⟩ 9

/-- C9: every payment lookup operation answers an unknown payment id
and a payment owned by a different agent with the very same not-found
error, so an ownership mismatch is indistinguishable from absence. -/
theorem C9_notfound_indistinguishable (p : Payment) (caller : String)
    (sr : GatewayStatusResult) (rr : GatewayRefundResult) (cr : GatewayCancelResult)
    (now : Nat) (hown : p.agentId ≠ caller) :
    PaymentService.getPaymentById none caller = .error (.notFound notFoundMsg)
    ∧ PaymentService.getPaymentById (some p) caller = .error (.notFound notFoundMsg)
    ∧ (PaymentService.checkPaymentStatus none caller sr now).response
      = .error (.notFound notFoundMsg)
    ∧ (PaymentService.checkPaymentStatus (some p) caller sr now).response
      = .error (.notFound notFoundMsg)
    ∧ PaymentService.refundPayment none caller rr now = .error (.notFound notFoundMsg)
    ∧ PaymentService.refundPayment (some p) caller rr now = .error (.notFound notFoundMsg)
    ∧ PaymentService.cancelPayment none caller cr now = .error (.notFound notFoundMsg)
    ∧ PaymentService.cancelPayment (some p) caller cr now = .error (.notFound notFoundMsg) := by
  refine ⟨rfl, ?_, rfl, ?_, rfl, ?_, rfl, ?_⟩
  · simp [PaymentService.getPaymentById, hown]
  · simp [PaymentService.checkPaymentStatus, hown]
  · simp [PaymentService.refundPayment, hown]
  · simp [PaymentService.cancelPayment, hown]

/-- C9 witness: the lookups evaluated on the sample payment queried by
a different agent. -/
theorem C9_notfound_indistinguishable_witness :
    PaymentService.getPaymentById none "other-agent" = .error (.notFound notFoundMsg)
    ∧ PaymentService.getPaymentById (some samplePaymentCompleted) "other-agent"
      = .error (.notFound notFoundMsg)
    ∧ (PaymentService.checkPaymentStatus none "other-agent"
        ⟨true, .completed, "d"⟩ 9).response = .error (.notFound notFoundMsg)
    ∧ (PaymentService.checkPaymentStatus (some samplePaymentCompleted) "other-agent"
        ⟨true, .completed, "d"⟩ 9).response = .error (.notFound notFoundMsg)
    ∧ PaymentService.refundPayment none "other-agent" ⟨true, "r1"⟩ 9
      = .error (.notFound notFoundMsg)
    ∧ PaymentService.refundPayment (some samplePaymentCompleted) "other-agent" ⟨true, "r1"⟩ 9
      = .error (.notFound notFoundMsg)
    ∧ PaymentService.cancelPayment none "other-agent" ⟨true⟩ 9
      = .error (.notFound notFoundMsg)
    ∧ PaymentService.cancelPayment (some samplePaymentCompleted) "other-agent" ⟨true⟩ 9
      = .error (.notFound notFoundMsg) :=
  C9_notfound_indistinguishable samplePaymentCompleted "other-agent"
    ⟨true, .completed, "d"⟩ ⟨true, "r1"⟩ ⟨true⟩ 9 (by decide)

/-- C10: the caller-initiated status poll returns a terminal record
from cache without polling the gateway or changing the stored record;
when it transitions a pending record whose polled status differs it
rewrites only the status, processedAt and paymentDetails fields —
metadata, and with it the topUpCompleted marker, is untouched — and on
no input does it invoke the settlement step. -/
theorem C10_checkstatus_frame (p : Payment) (sr : GatewayStatusResult) (now : Nat)
    (q : Option Payment) (aid : String)
    (hterm : p.status ≠ .pending) (pp : Payment) (hpp : pp.status = .pending)
    (hsr : sr.success = true) (hdiff : sr.status ≠ pp.status) (hown : pp.agentId = aid) :
    PaymentService.checkPaymentStatus (some p) p.agentId sr now = ⟨.ok p, some p, false, 0⟩
    ∧ PaymentService.checkPaymentStatus (some pp) aid sr now =
      ⟨.ok { pp with status := sr.status, processedAt := some now, paymentDetails := sr.details },
       some { pp with status := sr.status, processedAt := some now, paymentDetails := sr.details },
       true, 0⟩
    ∧ (PaymentService.checkPaymentStatus q aid sr now).settlementInvocations = 0 := by
  refine ⟨?_, ?_, ?_⟩
  · rcases p with ⟨i, t, rf, ag, am, st, pm, sv, pdt, md, pr, fr⟩
    cases st
    · exact absurd rfl hterm
    all_goals simp [PaymentService.checkPaymentStatus]
  · subst hown
    have hd2 : sr.status ≠ PaymentStatus.pending := by
      rw [← hpp]
      exact hdiff
    simp [PaymentService.checkPaymentStatus, hpp, hsr, hd2,
      PaymentService.updatePaymentStatus]
  · rcases q with _ | pay
    · rfl
    · simp only [PaymentService.checkPaymentStatus]
      split
      · rfl
      · split
        · rfl
        · split <;> rfl

/-- C10 witness: the poll evaluated on the sample completed payment and
on the sample pending payment whose gateway poll reports completed. -/
theorem C10_checkstatus_frame_witness :
    PaymentService.checkPaymentStatus (some samplePaymentCompleted)
      samplePaymentCompleted.agentId ⟨true, .completed, "d"⟩ 9
      = ⟨.ok samplePaymentCompleted, some samplePaymentCompleted, false, 0⟩
    ∧ PaymentService.checkPaymentStatus (some samplePaymentPending) "agent-1"
        ⟨true, .completed, "d"⟩ 9 =
      ⟨.ok { samplePaymentPending with
              status := .completed
              processedAt := some 9
              paymentDetails := "d" },
       some { samplePaymentPending with
              status := .completed
              processedAt := some 9
              paymentDetails := "d" },
       true, 0⟩
    ∧ (PaymentService.checkPaymentStatus (some samplePaymentPending) "agent-1"
        ⟨true, .completed, "d"⟩ 9).settlementInvocations = 0 :=
  C10_checkstatus_frame samplePaymentCompleted ⟨true, .completed, "d"⟩ 9
    (some samplePaymentPending) "agent-1" (by decide) samplePaymentPending
    (by decide) rfl (by decide) rfl

/-- C5: with a nonempty cached token whose stored expiry is strictly
later than now and whose vault decryption succeeds, getSasToken issues
no remote login and returns the decrypted cached token with the agent
record untouched; when the token is absent, empty or expired, the
agent has a SAS system and its stored password decrypts, it issues
exactly one login, persists the vault-encrypted new token with an
expiry one hour (3600 seconds) ahead, and returns the plaintext
token. -/
theorem C5_token_cache (cipherDec cipherEnc : String → String)
    (loginRes : Except SasError String) (now : Nat) (agent stale : Agent)
    (tok : String) (e : Nat) (newToken : String) (sys : SasSystem) (pw : String)
    (hcache : agent.encryptedSasToken = some tok) (hne : tok ≠ "")
    (hexp : agent.sasTokenExpiresAt = some e) (hfresh : e > now)
    (hdtok : cipherDec tok ≠ "")
    (hmiss : stale.encryptedSasToken = none ∨ stale.encryptedSasToken = some ""
      ∨ stale.sasTokenExpiresAt = none
      ∨ ∃ d, stale.sasTokenExpiresAt = some d ∧ d ≤ now)
    (hsys : stale.sasSystem = some sys)
    (hpw : EncryptionService.decrypt cipherDec stale.encryptedPassword = .ok pw)
    (hlogin : loginRes = .ok newToken) :
    SasTokenService.getSasToken cipherDec cipherEnc loginRes now agent
      = ⟨.ok (cipherDec tok), 0, agent⟩
    ∧ SasTokenService.getSasToken cipherDec cipherEnc loginRes now stale
      = ⟨.ok newToken, 1,
         { stale with
           encryptedSasToken := some (EncryptionService.encrypt cipherEnc newToken)
           sasTokenExpiresAt := some (now + 3600) }⟩ := by
  constructor
  · simp [SasTokenService.getSasToken, hcache, hexp, truthyStr, hne, hfresh,
      EncryptionService.decrypt, hdtok]
  · have hguard : (truthyStr stale.encryptedSasToken
        && (match stale.sasTokenExpiresAt with
            | some d => decide (d > now)
            | none => false)) = false := by
      rcases hmiss with h | h | h | ⟨d, hd, hdle⟩
      · simp [truthyStr, h]
      · simp [truthyStr, h]
      · cases hb : truthyStr stale.encryptedSasToken <;> simp [h]
      · cases hb : truthyStr stale.encryptedSasToken <;> simp [hd, Nat.not_lt_of_le hdle]
    simp [SasTokenService.getSasToken, hguard, hsys, hpw, hlogin]

/-- C5 witness: a fresh cached token is reused with no login, and an
expired one on an agent with a SAS system and a decryptable password
triggers a single persisted refresh. -/
theorem C5_token_cache_witness :
    SasTokenService.getSasToken id id (.ok "new-tok") 100
      { id := "a1", username := "u", encryptedPassword := "p",
        encryptedSasToken := some "cached", sasTokenExpiresAt := some 200 }
      = ⟨.ok (id "cached"), 0,
         { id := "a1", username := "u", encryptedPassword := "p",
           encryptedSasToken := some "cached", sasTokenExpiresAt := some 200 }⟩
    ∧ SasTokenService.getSasToken id id (.ok "new-tok") 100
      { id := "a2", username := "v", encryptedPassword := "q",
        encryptedSasToken := some "old", sasTokenExpiresAt := some 50,
        sasSystem := some { id := "s1", baseUrl := "b", sslEnabled := true,
                            adminUsername := "adm", adminEncryptedPassword := "enc-adm" } }
      = ⟨.ok "new-tok", 1,
         { id := "a2", username := "v", encryptedPassword := "q",
           encryptedSasToken := some (EncryptionService.encrypt id "new-tok"),
           sasTokenExpiresAt := some 3700,
           sasSystem := some { id := "s1", baseUrl := "b", sslEnabled := true,
                               adminUsername := "adm", adminEncryptedPassword := "enc-adm" } }⟩ :=
  C5_token_cache id id (.ok "new-tok") 100
    { id := "a1", username := "u", encryptedPassword := "p",
      encryptedSasToken := some "cached", sasTokenExpiresAt := some 200 }
    { id := "a2", username := "v", encryptedPassword := "q",
      encryptedSasToken := some "old", sasTokenExpiresAt := some 50,
      sasSystem := some { id := "s1", baseUrl := "b", sslEnabled := true,
                          adminUsername := "adm", adminEncryptedPassword := "enc-adm" } }
    "cached" 200 "new-tok"
    { id := "s1", baseUrl := "b", sslEnabled := true,
      adminUsername := "adm", adminEncryptedPassword := "enc-adm" }
    "q" rfl (by decide) rfl (by decide) (by decide)
    (Or.inr (Or.inr (Or.inr ⟨50, rfl, by decide⟩))) rfl (by decide) rfl

/-- C6: whenever the underlying cipher inverts its own encryption of a
nonempty string s and produces a nonempty ciphertext for it, the vault
satisfies decrypt (encrypt s) = ok s; and both vault operations map the
empty string to the empty string. -/
theorem C6_encrypt_decrypt_roundtrip (cipherEnc cipherDec : String → String) (s : String)
    (hs : s ≠ "") (hround : cipherDec (cipherEnc s) = s) (hcne : cipherEnc s ≠ "") :
    EncryptionService.decrypt cipherDec (EncryptionService.encrypt cipherEnc s) = .ok s
    ∧ EncryptionService.encrypt cipherEnc "" = ""
    ∧ EncryptionService.decrypt cipherDec "" = .ok "" := by
  refine ⟨?_, rfl, rfl⟩
  unfold EncryptionService.encrypt EncryptionService.decrypt
  rw [if_neg hs, if_neg hcne, hround, if_neg hs]

/-- Concrete invertible cipher used to witness the vault round trip:
encryption prepends a marker character, decryption strips it. -/
def markCipherEnc : String → String := fun t => String.mk ('X' :: t.data)

def markCipherDec : String → String := fun t => String.mk t.data.tail

/-- C6 witness: the round trip evaluated on a concrete secret with the
marker cipher. -/
theorem C6_encrypt_decrypt_roundtrip_witness :
    EncryptionService.decrypt markCipherDec (EncryptionService.encrypt markCipherEnc "secret")
      = .ok "secret"
    ∧ EncryptionService.encrypt markCipherEnc "" = ""
    ∧ EncryptionService.decrypt markCipherDec "" = .ok "" :=
  C6_encrypt_decrypt_roundtrip markCipherEnc markCipherDec "secret"
    (by decide) (by decide) (by decide)

/-- C7: when the signature header fails verification the notification
endpoint throws before the payment record is looked up, the stored
record is unchanged whatever the payload contains, and the settlement
step is never reached; a missing public key file makes verification
fail for every signature. -/
theorem C7_invalid_signature_rejected (expectedToken : String) (req : NotifRequest)
    (publicKeyExists rsaValid : Bool) (paymentFound : Option Payment)
    (topUpRes : Except String Unit) (now : Nat) (sig : String)
    (htok : req.token = expectedToken) (hsig : req.signature = some sig)
    (hver : QiCardGatewayService.verifyWebhookSignature publicKeyExists rsaValid = false) :
    QiCardWebhookController.handleNotification expectedToken req publicKeyExists rsaValid
      paymentFound topUpRes now
      = ⟨.error "Invalid signature", paymentFound, 0, 0⟩
    ∧ (∀ rv : Bool, QiCardGatewayService.verifyWebhookSignature false rv = false) := by
  constructor
  · simp [QiCardWebhookController.handleNotification, htok, hsig, hver]
  · intro rv
    rfl

/-- C7 witness: a notification with an invalid signature over the
sample completed payment is rejected with no state change. -/
theorem C7_invalid_signature_rejected_witness :
    QiCardWebhookController.handleNotification "tok"
      ⟨"tok", some "bad-sig", ⟨"TX1", "SUCCESS"⟩⟩ true false
      (some samplePaymentCompleted) (.ok ()) 9
      = ⟨.error "Invalid signature", some samplePaymentCompleted, 0, 0⟩
    ∧ (∀ rv : Bool, QiCardGatewayService.verifyWebhookSignature false rv = false) :=
  C7_invalid_signature_rejected "tok" ⟨"tok", some "bad-sig", ⟨"TX1", "SUCCESS"⟩⟩
    true false (some samplePaymentCompleted) (.ok ()) 9 "bad-sig" rfl rfl rfl

/-- C8: when the deposit call fails with 401 after the payment has
reached completed, completeTopUp surfaces the error to its caller
unchanged, and the settlement step leaves the stored status at
completed while recording the error message and the attempt timestamp
in the metadata. -/
theorem C8_settlement_failure_frame (payment stored : Payment) (agent : Agent)
    (sys : SasSystem) (amount mid : Nat) (cipherDec : String → String)
    (tok1 adminTok : String) (info1 : UserInfo) (pw : String)
    (tokenRes2 : Except SasError String) (userInfo2 : Except SasError UserInfo) (now : Nat)
    (hstatus : stored.status = .completed)
    (hsvc : payment.serviceType = .agentTopUp)
    (hsys : agent.sasSystem = some sys)
    (hmid : agent.sasManagerId = some mid)
    (hpw : EncryptionService.decrypt cipherDec sys.adminEncryptedPassword = .ok pw) :
    (AgentsService.completeTopUp (some agent) amount cipherDec (.ok tok1) (.ok info1)
        (.ok adminTok) (.error .authExpired) tokenRes2 userInfo2).result
      = .error (.sas .authExpired)
    ∧ (PaymentService.processSuccessfulPayment payment stored
        (topUpMsgRes (AgentsService.completeTopUp (some agent) amount cipherDec (.ok tok1)
          (.ok info1) (.ok adminTok) (.error .authExpired) tokenRes2 userInfo2).result)
        now).stored.status = .completed
    ∧ (PaymentService.processSuccessfulPayment payment stored
        (topUpMsgRes (AgentsService.completeTopUp (some agent) amount cipherDec (.ok tok1)
          (.ok info1) (.ok adminTok) (.error .authExpired) tokenRes2 userInfo2).result)
        now).stored.metadata.topUpError = some "SAS authentication expired"
    ∧ (PaymentService.processSuccessfulPayment payment stored
        (topUpMsgRes (AgentsService.completeTopUp (some agent) amount cipherDec (.ok tok1)
          (.ok info1) (.ok adminTok) (.error .authExpired) tokenRes2 userInfo2).result)
        now).stored.metadata.topUpAttemptedAt = some now := by
  have hctu : (AgentsService.completeTopUp (some agent) amount cipherDec (.ok tok1)
      (.ok info1) (.ok adminTok) (.error .authExpired) tokenRes2 userInfo2).result
      = .error (.sas .authExpired) := by
    simp [AgentsService.completeTopUp, hsys, hmid, hpw, Option.or]
  refine ⟨hctu, ?_, ?_, ?_⟩ <;>
    simp [hctu, topUpMsgRes, CtuError.message,
      PaymentService.processSuccessfulPayment, hsvc, hstatus]

/-- C8 witness: the deposit 401 scenario evaluated on the sample
completed payment and a concrete agent. -/
theorem C8_settlement_failure_frame_witness :
    (AgentsService.completeTopUp
        (some { id := "a1", username := "u", encryptedPassword := "p",
                sasManagerId := some 7,
                sasSystem := some { id := "s1", baseUrl := "b", sslEnabled := true,
                                    adminUsername := "adm",
                                    adminEncryptedPassword := "enc-adm" } })
        10000 (fun _ => "adm-pw") (.ok "agent-tok") (.ok { clientId := some 7, balance := some 50 })
        (.ok "admin-tok") (.error .authExpired) (.ok "agent-tok2") (.ok {})).result
      = .error (.sas .authExpired)
    ∧ (PaymentService.processSuccessfulPayment samplePaymentCompleted samplePaymentCompleted
        (topUpMsgRes (AgentsService.completeTopUp
          (some { id := "a1", username := "u", encryptedPassword := "p",
                  sasManagerId := some 7,
                  sasSystem := some { id := "s1", baseUrl := "b", sslEnabled := true,
                                      adminUsername := "adm",
                                      adminEncryptedPassword := "enc-adm" } })
          10000 (fun _ => "adm-pw") (.ok "agent-tok") (.ok { clientId := some 7, balance := some 50 })
          (.ok "admin-tok") (.error .authExpired) (.ok "agent-tok2") (.ok {})).result)
        9).stored.status = .completed
    ∧ (PaymentService.processSuccessfulPayment samplePaymentCompleted samplePaymentCompleted
        (topUpMsgRes (AgentsService.completeTopUp
          (some { id := "a1", username := "u", encryptedPassword := "p",
                  sasManagerId := some 7,
                  sasSystem := some { id := "s1", baseUrl := "b", sslEnabled := true,
                                      adminUsername := "adm",
                                      adminEncryptedPassword := "enc-adm" } })
          10000 (fun _ => "adm-pw") (.ok "agent-tok") (.ok { clientId := some 7, balance := some 50 })
          (.ok "admin-tok") (.error .authExpired) (.ok "agent-tok2") (.ok {})).result)
        9).stored.metadata.topUpError = some "SAS authentication expired"
    ∧ (PaymentService.processSuccessfulPayment samplePaymentCompleted samplePaymentCompleted
        (topUpMsgRes (AgentsService.completeTopUp
          (some { id := "a1", username := "u", encryptedPassword := "p",
                  sasManagerId := some 7,
                  sasSystem := some { id := "s1", baseUrl := "b", sslEnabled := true,
                                      adminUsername := "adm",
                                      adminEncryptedPassword := "enc-adm" } })
          10000 (fun _ => "adm-pw") (.ok "agent-tok") (.ok { clientId := some 7, balance := some 50 })
          (.ok "admin-tok") (.error .authExpired) (.ok "agent-tok2") (.ok {})).result)
        9).stored.metadata.topUpAttemptedAt = some 9 :=
  C8_settlement_failure_frame samplePaymentCompleted samplePaymentCompleted
    { id := "a1", username := "u", encryptedPassword := "p",
      sasManagerId := some 7,
      sasSystem := some { id := "s1", baseUrl := "b", sslEnabled := true,
                          adminUsername := "adm", adminEncryptedPassword := "enc-adm" } }
    { id := "s1", baseUrl := "b", sslEnabled := true,
      adminUsername := "adm", adminEncryptedPassword := "enc-adm" }
    10000 7 (fun _ => "adm-pw") "agent-tok" "admin-tok"
    { clientId := some 7, balance := some 50 } "adm-pw" (.ok "agent-tok2") (.ok {}) 9
    rfl rfl rfl rfl (by decide)

/-- Characterization of the retry loop when the attempt after k
retryable failures answers 401: the loop aborts immediately with the
authentication-expired error, having slept only after the k earlier
failures and audited every attempt twice. -/
theorem requestFrom_auth401 (oracle : Nat → AttemptOutcome) (d : Nat) :
    ∀ (k r base : Nat), k < r →
    (∀ j, j < k → isRetryableFail (oracle (base + j + 1)) = true) →
    oracle (base + k + 1) = .failure (some 401) →
    requestFrom oracle d r base =
      ⟨.error .authExpired, delaysUpTo d base k,
        failTrail base k ++ [.sasRequest (base + k + 1), .sasResponseFailed (base + k + 1)]⟩ := by
  intro k
  induction k with
  | zero =>
    intro r base hk hret h401
    match r, hk with
    | r' + 1, _ =>
      simp only [requestFrom]
      rw [show base + 0 + 1 = base + 1 from rfl] at h401
      rw [h401]
      simp [delaysUpTo, failTrail]
  | succ k ih =>
    intro r base hk hret h401
    match r, hk with
    | r' + 1, _ =>
      have hr' : k < r' := by omega
      have h0 := hret 0 (Nat.succ_pos k)
      rw [show base + 0 + 1 = base + 1 from rfl] at h0
      rcases hor : oracle (base + 1) with v | st
      · rw [hor] at h0
        simp [isRetryableFail] at h0
      · rw [hor] at h0
        have hst : st ≠ some 401 := by
          simpa [isRetryableFail] using h0
        have hrne : r' ≠ 0 := by omega
        simp only [requestFrom]
        rw [hor]
        simp only [if_neg hst, if_neg hrne]
        have hret' : ∀ j, j < k → isRetryableFail (oracle (base + 1 + j + 1)) = true := by
          intro j hj
          have := hret (j + 1) (by omega)
          rwa [show base + (j + 1) + 1 = base + 1 + j + 1 by omega] at this
        have h401' : oracle (base + 1 + k + 1) = .failure (some 401) := by
          rwa [show base + (k + 1) + 1 = base + 1 + k + 1 by omega] at h401
        rw [ih r' (base + 1) hr' hret' h401']
        simp [delaysUpTo, failTrail]
        omega

/-- Characterization of the retry loop when the attempt after k
retryable failures succeeds: the data is returned, with one delay per
earlier failure and two audits per attempt. -/
theorem requestFrom_success (oracle : Nat → AttemptOutcome) (d : Nat) :
    ∀ (k r base v : Nat), k < r →
    (∀ j, j < k → isRetryableFail (oracle (base + j + 1)) = true) →
    oracle (base + k + 1) = .success v →
    requestFrom oracle d r base =
      ⟨.ok v, delaysUpTo d base k,
        failTrail base k ++ [.sasRequest (base + k + 1), .sasResponseSuccess (base + k + 1)]⟩ := by
  intro k
  induction k with
  | zero =>
    intro r base v hk hret hsucc
    match r, hk with
    | r' + 1, _ =>
      simp only [requestFrom]
      rw [show base + 0 + 1 = base + 1 from rfl] at hsucc
      rw [hsucc]
      simp [delaysUpTo, failTrail]
  | succ k ih =>
    intro r base v hk hret hsucc
    match r, hk with
    | r' + 1, _ =>
      have hr' : k < r' := by omega
      have h0 := hret 0 (Nat.succ_pos k)
      rw [show base + 0 + 1 = base + 1 from rfl] at h0
      rcases hor : oracle (base + 1) with w | st
      · rw [hor] at h0
        simp [isRetryableFail] at h0
      · rw [hor] at h0
        have hst : st ≠ some 401 := by
          simpa [isRetryableFail] using h0
        have hrne : r' ≠ 0 := by omega
        simp only [requestFrom]
        rw [hor]
        simp only [if_neg hst, if_neg hrne]
        have hret' : ∀ j, j < k → isRetryableFail (oracle (base + 1 + j + 1)) = true := by
          intro j hj
          have := hret (j + 1) (by omega)
          rwa [show base + (j + 1) + 1 = base + 1 + j + 1 by omega] at this
        have hsucc' : oracle (base + 1 + k + 1) = .success v := by
          rwa [show base + (k + 1) + 1 = base + 1 + k + 1 by omega] at hsucc
        rw [ih r' (base + 1) v hr' hret' hsucc']
        simp [delaysUpTo, failTrail]
        omega

/-- Characterization of the retry loop when every allowed attempt fails
retryably: the loop exhausts its budget and surfaces the service
temporarily unavailable error, with a delay after every attempt except
the last. -/
theorem requestFrom_exhaust (oracle : Nat → AttemptOutcome) (d : Nat) :
    ∀ (r base : Nat), 0 < r →
    (∀ j, j < r → isRetryableFail (oracle (base + j + 1)) = true) →
    requestFrom oracle d r base =
      ⟨.error .serviceUnavailable, delaysUpTo d base (r - 1), failTrail base r⟩ := by
  intro r
  induction r with
  | zero =>
    intro base hr hret
    exact absurd hr (by omega)
  | succ r' ih =>
    intro base hr hret
    have h0 := hret 0 (by omega)
    rw [show base + 0 + 1 = base + 1 from rfl] at h0
    rcases hor : oracle (base + 1) with v | st
    · rw [hor] at h0
      simp [isRetryableFail] at h0
    · rw [hor] at h0
      have hst : st ≠ some 401 := by
        simpa [isRetryableFail] using h0
      simp only [requestFrom]
      rw [hor]
      rcases r' with _ | m
      · simp [if_neg hst, delaysUpTo, failTrail]
      · have hret' : ∀ j, j < m + 1 → isRetryableFail (oracle (base + 1 + j + 1)) = true := by
          intro j hj
          have := hret (j + 1) (by omega)
          rwa [show base + (j + 1) + 1 = base + 1 + j + 1 by omega] at this
        simp only [if_neg hst, if_neg (Nat.succ_ne_zero m)]
        rw [ih (base + 1) (Nat.succ_pos m) hret']
        simp [delaysUpTo, failTrail]

/-- C3: the retry policy of the remote ledger client. A 401 answered to
any attempt aborts the call at once with the authentication-expired
error and no further delay; a success after k retryable failures
returns the data after exactly the delays retryDelay*1 .. retryDelay*k;
when every one of the maxRetries attempts fails retryably the call
surfaces the distinct service-temporarily-unavailable error, having
slept after every attempt but the last; and every attempt writes its
request audit and its response audit. -/
theorem C3_retry_policy :
    (∀ (oracle : Nat → AttemptOutcome) (maxRetries retryDelay k : Nat),
      k < maxRetries →
      (∀ j, j < k → isRetryableFail (oracle (j + 1)) = true) →
      oracle (k + 1) = .failure (some 401) →
      SasClientService.request oracle maxRetries retryDelay =
        ⟨.error .authExpired, delaysUpTo retryDelay 0 k,
          failTrail 0 k ++ [.sasRequest (k + 1), .sasResponseFailed (k + 1)]⟩)
    ∧ (∀ (oracle : Nat → AttemptOutcome) (maxRetries retryDelay k v : Nat),
      k < maxRetries →
      (∀ j, j < k → isRetryableFail (oracle (j + 1)) = true) →
      oracle (k + 1) = .success v →
      SasClientService.request oracle maxRetries retryDelay =
        ⟨.ok v, delaysUpTo retryDelay 0 k,
          failTrail 0 k ++ [.sasRequest (k + 1), .sasResponseSuccess (k + 1)]⟩)
    ∧ (∀ (oracle : Nat → AttemptOutcome) (maxRetries retryDelay : Nat),
      0 < maxRetries →
      (∀ j, j < maxRetries → isRetryableFail (oracle (j + 1)) = true) →
      SasClientService.request oracle maxRetries retryDelay =
        ⟨.error .serviceUnavailable, delaysUpTo retryDelay 0 (maxRetries - 1),
          failTrail 0 maxRetries⟩)
    ∧ SasError.authExpired ≠ SasError.serviceUnavailable := by
  refine ⟨?_, ?_, ?_, by decide⟩
  · intro oracle m d k hk hret h401
    have h := requestFrom_auth401 oracle d k m 0 hk
      (by intro j hj; simpa using hret j hj) (by simpa using h401)
    simpa [SasClientService.request] using h
  · intro oracle m d k v hk hret hsucc
    have h := requestFrom_success oracle d k m 0 v hk
      (by intro j hj; simpa using hret j hj) (by simpa using hsucc)
    simpa [SasClientService.request] using h
  · intro oracle m d hm hret
    have h := requestFrom_exhaust oracle d m 0 hm
      (by intro j hj; simpa using hret j hj)
    simpa [SasClientService.request] using h

/-- C3 witness: the policy evaluated on the three concrete oracles —
401 on the first attempt, two timeouts then a success, and nothing but
timeouts. -/
theorem C3_retry_policy_witness :
    SasClientService.request always401 3 1000 =
      ⟨.error .authExpired, delaysUpTo 1000 0 0,
        failTrail 0 0 ++ [.sasRequest 1, .sasResponseFailed 1]⟩
    ∧ SasClientService.request timeoutsThenSuccess 3 1000 =
      ⟨.ok 200, delaysUpTo 1000 0 2,
        failTrail 0 2 ++ [.sasRequest 3, .sasResponseSuccess 3]⟩
    ∧ SasClientService.request (fun _ => .failure none) 3 1000 =
      ⟨.error .serviceUnavailable, delaysUpTo 1000 0 2, failTrail 0 3⟩ :=
  ⟨C3_retry_policy.1 always401 3 1000 0 (by decide)
      (fun j hj => absurd hj (Nat.not_lt_zero j)) (by decide),
   C3_retry_policy.2.1 timeoutsThenSuccess 3 1000 2 200 (by decide)
      (by decide) (by decide),
   C3_retry_policy.2.2.1 (fun _ => .failure none) 3 1000 (by decide)
      (by decide)⟩
